import Mathlib

/-!
Shallow embedding of the TwitterApiClient core
(src/src/services/twitter/apiClient.ts) and verification of its
natural-language specification.

JavaScript values passed through the client (raw responses, tweets,
thrown values) are modelled by the inductive type JsonVal; JavaScript
runtime behaviour that the source relies on (truthiness, property
access, String.prototype.trim, String.prototype.includes,
Number.prototype.toString, Array.prototype.map) is modelled by
executable Lean functions. Fallible code returns Except. The three
methods of the class are embedded as fetchTweets, handleError and
processResponse; the constructor as mkTwitterApiClient.
-/

/-- Model of a JavaScript value as it appears in JSON payloads and
thrown values: null, undefined, booleans, numbers (as rationals, which
cover every finite JavaScript number), strings, arrays and objects. -/
inductive JsonVal where
  | vNull : JsonVal
  | vUndefined : JsonVal
  | vBool : Bool → JsonVal
  | vNum : Rat → JsonVal
  | vStr : String → JsonVal
  | vArr : List JsonVal → JsonVal
  | vObj : List (String × JsonVal) → JsonVal

/-- JavaScript truthiness: null, undefined, false, 0 and the empty
string are falsy; every array and object is truthy. -/
def truthy : JsonVal → Bool
  | JsonVal.vNull => false
  | JsonVal.vUndefined => false
  | JsonVal.vBool b => b
  | JsonVal.vNum q => !(q.num == 0)
  | JsonVal.vStr s => !(s == "")
  | JsonVal.vArr _ => true
  | JsonVal.vObj _ => true

/-- JavaScript property access v.name on a base that is not null and
not undefined: a missing key, or a base without properties, yields
undefined. (Access on null/undefined throws; the source only accesses
properties behind truthiness guards or explicit error branches.) -/
def getField (v : JsonVal) (name : String) : JsonVal :=
  match v with
  | JsonVal.vObj fs => (fs.lookup name).getD JsonVal.vUndefined
  | _ => JsonVal.vUndefined

/-- A thrown JavaScript value: either an Error instance carrying a
message, or an arbitrary non-Error value. -/
inductive JsError where
  | errObj : String → JsError
  | nonError : JsonVal → JsError

/-- One console.error emission: either the unconditional raw-error log
console.error of the raw error object, or a supplementary
human-readable diagnostic line. -/
inductive LogEntry where
  | rawError : JsError → LogEntry
  | diagnostic : String → LogEntry

/-- Whitespace recognised by the model of String.prototype.trim. -/
def isWsp (c : Char) : Bool := c = ' ' || c = '\t' || c = '\n' || c = '\r'

/-- Model of JavaScript String.prototype.trim: remove leading and
trailing whitespace. (Defined over the character list so that it is
kernel-computable; the String.trim of the Lean library is not.) -/
def jsTrim (s : String) : String :=
  String.mk (((s.data.dropWhile isWsp).reverse.dropWhile isWsp).reverse)

/-- Model of JavaScript String.prototype.includes: sub occurs as a
contiguous substring of s. -/
def jsIncludes (s sub : String) : Bool :=
  (List.range (s.data.length + 1)).any fun i =>
    ((s.data.drop i).take sub.data.length) == sub.data

/-- Least exponent k (searched up to 119) with den dividing 10 ^ k:
the number of decimal digits after the point needed to write a
rational with denominator den exactly. -/
def decPow (den : Nat) : Option Nat :=
  (List.range 120).find? fun k => 10 ^ k % den == 0

/-- Pad a digit string with leading zeros up to width k. -/
def padZeros (s : String) (k : Nat) : String :=
  String.mk (List.replicate (k - s.length) '0') ++ s

/-- Model of JavaScript Number.prototype.toString on a finite number:
the shortest exact decimal rendering. Every JavaScript number is a
dyadic rational, so its denominator divides a power of ten and the
search in decPow succeeds; the fallback branch is never reached on
values a JavaScript program can hold. -/
def numToString (q : Rat) : String :=
  match decPow q.den with
  | none => toString q
  | some 0 => toString q.num
  | some k =>
    let sign := if q.num < 0 then "-" else ""
    let scaled := q.num.natAbs * 10 ^ k / q.den
    sign ++ toString (scaled / 10 ^ k) ++ "." ++ padZeros (toString (scaled % 10 ^ k)) k

/-- The rational n/1, built so that its fields reduce in the kernel. -/
def qnat (n : Nat) : Rat := ⟨n, 1, by decide, Nat.coprime_one_right _⟩

/-- The rational 1/2, the JavaScript number 0.5. -/
def halfQ : Rat := ⟨1, 2, by decide, Nat.coprime_one_left 2⟩

/-- Embedding of TwitterApiClient.handleError. It always emits the raw
error log; when the error is an Error instance whose message includes
"401" or "Unauthorized" it additionally emits the authentication
diagnostic, otherwise when the message includes "429" the rate-limit
diagnostic. The returned list is the ordered sequence of console.error
emissions; the method itself returns no value and cannot throw. -/
def handleError (error : JsError) : List LogEntry :=
  LogEntry.rawError error ::
    match error with
    | JsError.errObj msg =>
      if jsIncludes msg "401" || jsIncludes msg "Unauthorized" then
        [LogEntry.diagnostic "Authentication failed. Please check your Twitter API credentials."]
      else if jsIncludes msg "429" then
        [LogEntry.diagnostic "Rate limit exceeded. Please try again later."]
      else []
    | JsError.nonError _ => []

/-- Embedding of the arrow function that processResponse passes to
the map call on responseData.data: build the normalized tweet object.
Property access on a null or undefined element throws, as in
JavaScript. -/
def normTweet (tweet : JsonVal) : Except String JsonVal :=
  match tweet with
  | JsonVal.vNull => Except.error "TypeError: cannot read properties of null"
  | JsonVal.vUndefined => Except.error "TypeError: cannot read properties of undefined"
  | t =>
    Except.ok (JsonVal.vObj
      [("id", getField t "id"),
       ("text", getField t "text"),
       ("createdAt", getField t "created_at"),
       ("authorId", getField t "author_id"),
       ("metrics", getField t "public_metrics"),
       ("referencedTweets",
         if truthy (getField t "referenced_tweets") then getField t "referenced_tweets"
         else JsonVal.vArr [])])

/-- Embedding of Array.prototype.map over the tweet list: elements are
transformed left to right and the first exception aborts the map. -/
def mapNormTweet : List JsonVal → Except String (List JsonVal)
  | [] => Except.ok []
  | t :: ts =>
    match normTweet t with
    | Except.error e => Except.error e
    | Except.ok v =>
      match mapNormTweet ts with
      | Except.error e => Except.error e
      | Except.ok vs => Except.ok (v :: vs)

/-- Embedding of TwitterApiClient.processResponse. When the response or
its data field is falsy it returns the empty array; when data is an
array it maps normTweet over it; when data is truthy but not an array
the map call on responseData.data throws a TypeError. -/
def processResponse (responseData : JsonVal) : Except String JsonVal :=
  if truthy responseData = false then Except.ok (JsonVal.vArr [])
  else if truthy (getField responseData "data") = false then Except.ok (JsonVal.vArr [])
  else
    match getField responseData "data" with
    | JsonVal.vArr tweets =>
      match mapNormTweet tweets with
      | Except.error e => Except.error e
      | Except.ok ts => Except.ok (JsonVal.vArr ts)
    | _ => Except.error "TypeError: responseData.data.map is not a function"

/-- An HTTP response as produced by the transport (httpx.fetch): the ok
flag, numeric status, reason phrase, and the value the body parses to
via response.json(). -/
structure HttpResponse where
  ok : Bool
  status : Nat
  statusText : String
  body : JsonVal

/-- The structured content of the single GET request fetchTweets
builds: endpoint URL, the query parameters of the URLSearchParams, and
the two headers. -/
structure SearchRequest where
  url : String
  query : String
  max_results : String
  tweetFields : String
  authorization : String
  contentType : String

/-- Observable outcome of one fetchTweets call: the value returned or
error raised, the HTTP requests dispatched (in order), and the
console.error emissions. -/
structure FetchOutcome where
  result : Except JsError JsonVal
  requests : List SearchRequest
  log : List LogEntry

/-- The fixed API base endpoint of the client. -/
def API_BASE_URL : String := "https://api.twitter.com/2"

/-- Embedding of TwitterApiClient.fetchTweets. The transport argument
is the result of the single httpx.fetch call: either a thrown
transport error or an HttpResponse. Validation precedes request
construction; a non-ok response raises the formatted API error; on
success the parsed body is returned as is. The surrounding try/catch
passes every raised error to handleError and rethrows it unchanged. -/
def fetchTweets (authorizationHeader : String) (query : String) (limit : Rat)
    (transport : Except JsError HttpResponse) : FetchOutcome :=
  if query = "" ∨ (jsTrim query).length = 0 then
    let e := JsError.errObj "Query parameter is required"
    ⟨Except.error e, [], handleError e⟩
  else if limit ≤ 0 then
    let e := JsError.errObj "Limit must be a positive integer"
    ⟨Except.error e, [], handleError e⟩
  else
    let req : SearchRequest :=
      ⟨API_BASE_URL ++ "/tweets/search/recent",
       jsTrim query,
       numToString limit,
       "created_at,author_id,public_metrics,referenced_tweets",
       authorizationHeader,
       "application/json"⟩
    match transport with
    | Except.error e => ⟨Except.error e, [req], handleError e⟩
    | Except.ok resp =>
      if resp.ok = false then
        let e := JsError.errObj
          ("Twitter API error: " ++ toString resp.status ++ " " ++ resp.statusText)
        ⟨Except.error e, [req], handleError e⟩
      else ⟨Except.ok resp.body, [req], []⟩

/-- Embedding of the TwitterApiClient constructor. The credential
TWITTER_BEARER_TOKEN comes from the environment and may be absent
(undefined) or empty, both falsy; construction then throws. Otherwise
the stored read-only authorization header value is returned. -/
def mkTwitterApiClient (token : Option String) : Except JsError String :=
  match token with
  | none => Except.error (JsError.errObj "TWITTER_BEARER_TOKEN is not configured")
  | some t =>
    if t = "" then Except.error (JsError.errObj "TWITTER_BEARER_TOKEN is not configured")
    else Except.ok ("Bearer " ++ t)

/-- The field mapping of one raw record, written after the words of the
specification (§4.2 normalize): id→id, text→text, created_at→createdAt,
author_id→authorId, public_metrics→metrics passed through unchanged,
and referenced_tweets passed through when present, else the empty
sequence. The specification names the last output field
referencedPosts; the concrete output key of this implementation is
"referencedTweets". -/
def specNormalizedPost (r : List (String × JsonVal)) : JsonVal :=
  JsonVal.vObj
    [("id", (r.lookup "id").getD JsonVal.vUndefined),
     ("text", (r.lookup "text").getD JsonVal.vUndefined),
     ("createdAt", (r.lookup "created_at").getD JsonVal.vUndefined),
     ("authorId", (r.lookup "author_id").getD JsonVal.vUndefined),
     ("metrics", (r.lookup "public_metrics").getD JsonVal.vUndefined),
     ("referencedTweets",
       match r.lookup "referenced_tweets" with
       | some v => v
       | none => JsonVal.vArr [])]
-- helper lemmas

theorem string_length_zero {s : String} (h : s.length = 0) : s = "" := by
  cases s with
  | mk data =>
    cases data with
    | nil => rfl
    | cons c cs => simp [String.length] at h

theorem mapNormTweet_total (ts : List JsonVal)
    (h : ∀ t ∈ ts, t ≠ JsonVal.vNull ∧ t ≠ JsonVal.vUndefined) :
    ∃ out, mapNormTweet ts = Except.ok out := by
  induction ts with
  | nil => exact ⟨[], rfl⟩
  | cons t ts ih =>
    obtain ⟨out, hout⟩ := ih fun x hx => h x (List.mem_cons_of_mem _ hx)
    obtain ⟨h1, h2⟩ := h t (List.mem_cons_self _ _)
    have hnt : ∃ v, normTweet t = Except.ok v := by
      cases t with
      | vNull => exact absurd rfl h1
      | vUndefined => exact absurd rfl h2
      | vBool b => exact ⟨_, rfl⟩
      | vNum q => exact ⟨_, rfl⟩
      | vStr s => exact ⟨_, rfl⟩
      | vArr l => exact ⟨_, rfl⟩
      | vObj fs => exact ⟨_, rfl⟩
    obtain ⟨v, hv⟩ := hnt
    exact ⟨v :: out, by simp [mapNormTweet, hv, hout]⟩

/-- C1 counterexample: the raw response with a data field holding the
string "oops" is a RawResponse value of an unexpected data type, and
processResponse raises a TypeError on it instead of returning a
sequence. -/
theorem processResponse_raises_on_nonarray_data :
    processResponse (JsonVal.vObj [("data", JsonVal.vStr "oops")]) =
      Except.error "TypeError: responseData.data.map is not a function" := rfl

/-- C1 amended: processResponse is total on every raw response whose
response value is falsy, whose data field is falsy, or whose data
field is a sequence of non-null non-undefined entries; it then returns
a sequence, and in particular returns the empty sequence whenever the
response or its data field is absent (falsy). -/
theorem processResponse_total_amended (rv : JsonVal)
    (h : truthy rv = false ∨ truthy (getField rv "data") = false ∨
      ∃ ts, getField rv "data" = JsonVal.vArr ts ∧
        ∀ t ∈ ts, t ≠ JsonVal.vNull ∧ t ≠ JsonVal.vUndefined) :
    ∃ out, processResponse rv = Except.ok (JsonVal.vArr out) ∧
      ((truthy rv = false ∨ truthy (getField rv "data") = false) → out = []) := by
  by_cases h1 : truthy rv = false
  · exact ⟨[], by simp [processResponse, h1], fun _ => rfl⟩
  by_cases h2 : truthy (getField rv "data") = false
  · exact ⟨[], by simp [processResponse, h1, h2], fun _ => rfl⟩
  obtain ⟨ts, hts, hel⟩ := h.resolve_left h1 |>.resolve_left h2
  obtain ⟨out, hout⟩ := mapNormTweet_total ts hel
  refine ⟨out, ?_, ?_⟩
  · simp only [processResponse, if_neg h1, if_neg h2, hts, hout]
    simp [truthy]
  · intro hc
    rcases hc with hc | hc
    · exact absurd hc h1
    · exact absurd hc h2

/-- C1 witness: a concrete well-shaped response on which the amended
totality theorem applies, together with a concrete absent-data input
mapped to the empty sequence. -/
theorem processResponse_total_amended_witness :
    ∃ out, processResponse (JsonVal.vObj [("data", JsonVal.vArr [JsonVal.vObj [("id", JsonVal.vStr "1")]])]) =
      Except.ok (JsonVal.vArr out) ∧
      ((truthy (JsonVal.vObj [("data", JsonVal.vArr [JsonVal.vObj [("id", JsonVal.vStr "1")]])]) = false ∨
        truthy (getField (JsonVal.vObj [("data", JsonVal.vArr [JsonVal.vObj [("id", JsonVal.vStr "1")]])]) "data") = false) → out = []) :=
  processResponse_total_amended _
    (Or.inr (Or.inr ⟨[JsonVal.vObj [("id", JsonVal.vStr "1")]], rfl, by
      intro t ht
      simp only [List.mem_cons, List.not_mem_nil, or_false] at ht
      subst ht
      exact ⟨fun hc => JsonVal.noConfusion hc, fun hc => JsonVal.noConfusion hc⟩⟩))

theorem mapNormTweet_records (records : List (List (String × JsonVal)))
    (hrt : ∀ r ∈ records, r.lookup "referenced_tweets" = none ∨
      ∃ rs, r.lookup "referenced_tweets" = some (JsonVal.vArr rs)) :
    mapNormTweet (records.map JsonVal.vObj) =
      Except.ok (records.map specNormalizedPost) := by
  induction records with
  | nil => rfl
  | cons r rest ih =>
    have hr := hrt r (List.mem_cons_self _ _)
    have htail := ih fun x hx => hrt x (List.mem_cons_of_mem _ hx)
    have hhead : normTweet (JsonVal.vObj r) = Except.ok (specNormalizedPost r) := by
      rcases hr with hnone | ⟨rs, hsome⟩
      · simp [normTweet, specNormalizedPost, getField, hnone, truthy]
      · simp [normTweet, specNormalizedPost, getField, hsome, truthy]
    simp [mapNormTweet, hhead, htail]

/-- C4: on every raw response whose data field is a sequence of raw
records (records whose referenced_tweets field, when present, is a
sequence), processResponse returns exactly one normalized post per
record, position i of the output computed from position i of the
input, with the field mapping id→id, text→text, created_at→createdAt,
author_id→authorId, public_metrics→metrics passed through unchanged,
and referenced_tweets mapped to the referenced-posts output field: the
input sequence when present, the empty sequence when omitted, never
absent. -/
theorem processResponse_field_mapping (fields : List (String × JsonVal))
    (records : List (List (String × JsonVal)))
    (hdata : fields.lookup "data" = some (JsonVal.vArr (records.map JsonVal.vObj)))
    (hrt : ∀ r ∈ records, r.lookup "referenced_tweets" = none ∨
      ∃ rs, r.lookup "referenced_tweets" = some (JsonVal.vArr rs)) :
    processResponse (JsonVal.vObj fields) =
      Except.ok (JsonVal.vArr (records.map specNormalizedPost)) := by
  have hmap := mapNormTweet_records records hrt
  simp [processResponse, truthy, getField, hdata, hmap]

/-- C4 witness: the two-record scenario of the test suite, one record
with a referenced tweet and one without the field, mapped to the two
normalized posts in order. -/
theorem processResponse_field_mapping_witness :
    processResponse (JsonVal.vObj [("data", JsonVal.vArr
      ([[("id", JsonVal.vStr "12345"), ("text", JsonVal.vStr "This is a test tweet"),
         ("created_at", JsonVal.vStr "2023-08-01T12:00:00Z"), ("author_id", JsonVal.vStr "67890"),
         ("public_metrics", JsonVal.vObj [("like_count", JsonVal.vNum (qnat 10))]),
         ("referenced_tweets", JsonVal.vArr [JsonVal.vObj [("type", JsonVal.vStr "quoted"), ("id", JsonVal.vStr "54321")]])],
        [("id", JsonVal.vStr "12346"), ("text", JsonVal.vStr "Another tweet"),
         ("created_at", JsonVal.vStr "2023-08-01T12:05:00Z"), ("author_id", JsonVal.vStr "67891"),
         ("public_metrics", JsonVal.vObj [("like_count", JsonVal.vNum (qnat 15))])]].map JsonVal.vObj))]) =
      Except.ok (JsonVal.vArr
        ([[("id", JsonVal.vStr "12345"), ("text", JsonVal.vStr "This is a test tweet"),
           ("created_at", JsonVal.vStr "2023-08-01T12:00:00Z"), ("author_id", JsonVal.vStr "67890"),
           ("public_metrics", JsonVal.vObj [("like_count", JsonVal.vNum (qnat 10))]),
           ("referenced_tweets", JsonVal.vArr [JsonVal.vObj [("type", JsonVal.vStr "quoted"), ("id", JsonVal.vStr "54321")]])],
          [("id", JsonVal.vStr "12346"), ("text", JsonVal.vStr "Another tweet"),
           ("created_at", JsonVal.vStr "2023-08-01T12:05:00Z"), ("author_id", JsonVal.vStr "67891"),
           ("public_metrics", JsonVal.vObj [("like_count", JsonVal.vNum (qnat 15))])]].map specNormalizedPost)) :=
  processResponse_field_mapping _ _ rfl (by
    intro r hr
    simp only [List.mem_cons, List.not_mem_nil, or_false] at hr
    rcases hr with rfl | rfl
    · exact Or.inr ⟨_, rfl⟩
    · exact Or.inl rfl)
theorem validation_passes {q : String} (hq : jsTrim q ≠ "") :
    ¬(q = "" ∨ (jsTrim q).length = 0) := by
  rintro (rfl | hlen)
  · exact hq rfl
  · exact hq (string_length_zero hlen)

/-- C2: when validation passes and the transport yields a 2xx response,
fetchTweets returns exactly the parsed JSON body of the response, for
every body value, with no transformation applied: normalization is not
invoked inside fetch. -/
theorem fetchTweets_returns_raw_body (auth q : String) (limit : Rat) (resp : HttpResponse)
    (hq : jsTrim q ≠ "") (hl : 0 < limit)
    (hok : resp.ok = true ↔ 200 ≤ resp.status ∧ resp.status < 300)
    (h2xx : 200 ≤ resp.status ∧ resp.status < 300) :
    (fetchTweets auth q limit (Except.ok resp)).result = Except.ok resp.body := by
  have hvq := validation_passes hq
  have hro : resp.ok = true := hok.mpr h2xx
  simp [fetchTweets, hvq, not_le.mpr hl, hro]

/-- C2 witness: a concrete 200 response whose body is returned as is,
not normalized. -/
theorem fetchTweets_returns_raw_body_witness :
    (fetchTweets "Bearer t" "test" (qnat 10)
      (Except.ok ⟨true, 200, "OK", JsonVal.vObj [("data", JsonVal.vArr [])]⟩)).result =
      Except.ok (JsonVal.vObj [("data", JsonVal.vArr [])]) :=
  fetchTweets_returns_raw_body "Bearer t" "test" (qnat 10) ⟨true, 200, "OK", JsonVal.vObj [("data", JsonVal.vArr [])]⟩
    (by decide) (by decide) (by decide) (by decide)

/-- C3: when validation passes and the transport yields a non-2xx
response (the ok flag of the fetch API holding exactly on 2xx
statuses), fetchTweets raises, and the raised error message is exactly
the string "Twitter API error: " followed by the decimal status, a
space, and the provider-supplied reason phrase. -/
theorem fetchTweets_http_error_message (auth q : String) (limit : Rat) (resp : HttpResponse)
    (hq : jsTrim q ≠ "") (hl : 0 < limit)
    (hok : resp.ok = true ↔ 200 ≤ resp.status ∧ resp.status < 300)
    (h2xx : ¬(200 ≤ resp.status ∧ resp.status < 300)) :
    (fetchTweets auth q limit (Except.ok resp)).result =
      Except.error (JsError.errObj
        ("Twitter API error: " ++ toString resp.status ++ " " ++ resp.statusText)) := by
  have hvq := validation_passes hq
  have hro : resp.ok = false := by
    cases hro : resp.ok
    · rfl
    · exact absurd (hok.mp hro) h2xx
  simp [fetchTweets, hvq, not_le.mpr hl, hro]

/-- C3 witness: a concrete 404 response raises with the exact message
"Twitter API error: 404 Not Found". -/
theorem fetchTweets_http_error_message_witness :
    (fetchTweets "Bearer t" "test" (qnat 10)
      (Except.ok ⟨false, 404, "Not Found", JsonVal.vNull⟩)).result =
      Except.error (JsError.errObj "Twitter API error: 404 Not Found") :=
  fetchTweets_http_error_message "Bearer t" "test" (qnat 10) ⟨false, 404, "Not Found", JsonVal.vNull⟩
    (by decide) (by decide) (by decide) (by decide)

/-- C5: on every empty or whitespace-only query, and on every limit not
exceeding zero, fetchTweets raises one of the two validation errors and
dispatches no HTTP request, whatever the transport would have
answered. -/
theorem fetchTweets_validation_before_io (auth q : String) (limit : Rat)
    (tr : Except JsError HttpResponse)
    (h : jsTrim q = "" ∨ limit ≤ 0) :
    (fetchTweets auth q limit tr).requests = [] ∧
      ((fetchTweets auth q limit tr).result =
          Except.error (JsError.errObj "Query parameter is required") ∨
        (fetchTweets auth q limit tr).result =
          Except.error (JsError.errObj "Limit must be a positive integer")) := by
  by_cases hv : q = "" ∨ (jsTrim q).length = 0
  · refine ⟨by simp [fetchTweets, hv], Or.inl (by simp [fetchTweets, hv])⟩
  · have hle : limit ≤ 0 := by
      rcases h with htrim | hle
      · exact absurd (Or.inr (by rw [htrim]; rfl)) hv
      · exact hle
    exact ⟨by simp [fetchTweets, hv, hle], Or.inr (by simp [fetchTweets, hv, hle])⟩

/-- C5 witness: the concrete call fetch("", 10) raises a validation
error and dispatches no request. -/
theorem fetchTweets_validation_before_io_witness :
    (fetchTweets "Bearer t" "" (qnat 10) (Except.error (JsError.errObj "unreached"))).requests = [] ∧
      ((fetchTweets "Bearer t" "" (qnat 10) (Except.error (JsError.errObj "unreached"))).result =
          Except.error (JsError.errObj "Query parameter is required") ∨
        (fetchTweets "Bearer t" "" (qnat 10) (Except.error (JsError.errObj "unreached"))).result =
          Except.error (JsError.errObj "Limit must be a positive integer")) :=
  fetchTweets_validation_before_io "Bearer t" "" (qnat 10)
    (Except.error (JsError.errObj "unreached")) (Or.inl rfl)

/-- C6: on every path on which fetchTweets raises, the console output
is exactly what handleError produces on the raised error, so the hook
is invoked with that very error; and on a transport-level rejection
with valid inputs the error propagated to the caller is the identical
error value raised by the transport, unmodified. -/
theorem fetchTweets_error_hook (auth q : String) (limit : Rat)
    (tr : Except JsError HttpResponse) :
    (∀ e, (fetchTweets auth q limit tr).result = Except.error e →
      (fetchTweets auth q limit tr).log = handleError e) ∧
    (∀ e0, tr = Except.error e0 → jsTrim q ≠ "" → 0 < limit →
      (fetchTweets auth q limit tr).result = Except.error e0 ∧
      (fetchTweets auth q limit tr).log = handleError e0) := by
  constructor
  · intro e he
    by_cases hv : q = "" ∨ (jsTrim q).length = 0
    · simp [fetchTweets, hv] at he ⊢
      subst he
      rfl
    · by_cases hl : limit ≤ 0
      · simp [fetchTweets, hv, hl] at he ⊢
        subst he
        rfl
      · cases tr with
        | error e0 =>
          simp [fetchTweets, hv, hl] at he ⊢
          subst he
          rfl
        | ok resp =>
          by_cases hro : resp.ok = false
          · simp [fetchTweets, hv, hl, hro] at he ⊢
            subst he
            rfl
          · simp [fetchTweets, hv, hl, hro] at he
  · intro e0 htr hq hl
    subst htr
    have hvq := validation_passes hq
    exact ⟨by simp [fetchTweets, hvq, not_le.mpr hl], by simp [fetchTweets, hvq, not_le.mpr hl]⟩

/-- C6 witness: a concrete transport rejection propagates identically
and is logged through handleError. -/
theorem fetchTweets_error_hook_witness :
    (fetchTweets "Bearer t" "test" (qnat 10)
        (Except.error (JsError.errObj "Network error"))).result =
      Except.error (JsError.errObj "Network error") ∧
    (fetchTweets "Bearer t" "test" (qnat 10)
        (Except.error (JsError.errObj "Network error"))).log =
      handleError (JsError.errObj "Network error") :=
  (fetchTweets_error_hook "Bearer t" "test" (qnat 10)
    (Except.error (JsError.errObj "Network error"))).2
    (JsError.errObj "Network error") rfl (by decide) (by decide)

/-- C7: handleError first emits the raw error unconditionally; for an
Error instance it emits exactly the authentication diagnostic when the
message includes "401" or "Unauthorized", exactly the rate-limit
diagnostic when it includes "429" but neither of the former, and
nothing further otherwise; being a total function into an emission
list it never throws and returns no value. -/
theorem handleError_emissions (e : JsError) :
    (handleError e).head? = some (LogEntry.rawError e) ∧
    ∀ msg, e = JsError.errObj msg →
      (((jsIncludes msg "401" || jsIncludes msg "Unauthorized") = true →
        handleError e = [LogEntry.rawError e,
          LogEntry.diagnostic "Authentication failed. Please check your Twitter API credentials."]) ∧
      ((jsIncludes msg "401" || jsIncludes msg "Unauthorized") = false →
        jsIncludes msg "429" = true →
        handleError e = [LogEntry.rawError e,
          LogEntry.diagnostic "Rate limit exceeded. Please try again later."]) ∧
      ((jsIncludes msg "401" || jsIncludes msg "Unauthorized") = false →
        jsIncludes msg "429" = false →
        handleError e = [LogEntry.rawError e])) := by
  refine ⟨rfl, ?_⟩
  rintro msg rfl
  exact ⟨fun h1 => by simp [handleError, h1],
    fun h1 h2 => by simp [handleError, h1, h2],
    fun h1 h2 => by simp [handleError, h1, h2]⟩

/-- C7 witness: a 401 message produces the raw log plus exactly the
authentication diagnostic. -/
theorem handleError_emissions_witness :
    handleError (JsError.errObj "Twitter API error: 401 Unauthorized") =
      [LogEntry.rawError (JsError.errObj "Twitter API error: 401 Unauthorized"),
       LogEntry.diagnostic "Authentication failed. Please check your Twitter API credentials."] :=
  (((handleError_emissions (JsError.errObj "Twitter API error: 401 Unauthorized")).2
    "Twitter API error: 401 Unauthorized" rfl).1) (by decide)

/-- C9: on every thrown value that is not an Error instance, handleError
emits only the unconditional raw-error log and no classification
diagnostic, whatever the value holds. -/
theorem handleError_nonError_raw_only (v : JsonVal) :
    handleError (JsError.nonError v) = [LogEntry.rawError (JsError.nonError v)] := rfl

/-- C8: construction fails immediately when the bearer credential is
absent or empty, and succeeds on every non-empty credential, the
client then holding the bearer authorization value. -/
theorem mkTwitterApiClient_contract (token : Option String) :
    ((token = none ∨ token = some "") →
      mkTwitterApiClient token =
        Except.error (JsError.errObj "TWITTER_BEARER_TOKEN is not configured")) ∧
    (∀ t, token = some t → t ≠ "" →
      mkTwitterApiClient token = Except.ok ("Bearer " ++ t)) := by
  constructor
  · rintro (rfl | rfl)
    · rfl
    · rfl
  · rintro t rfl ht
    simp [mkTwitterApiClient, ht]

/-- C8 witness: a concrete non-empty credential constructs the client
and stores the bearer header. -/
theorem mkTwitterApiClient_contract_witness :
    mkTwitterApiClient (some "abc123") = Except.ok ("Bearer " ++ "abc123") :=
  (mkTwitterApiClient_contract (some "abc123")).2 "abc123" rfl (by decide)

/-- C10: validation accepts every limit strictly greater than zero with
no integrality check, and fetchTweets then dispatches exactly one HTTP
request whose max_results parameter is the decimal string of the
limit, whatever the transport answers. -/
theorem fetchTweets_dispatches_decimal_limit (auth q : String) (limit : Rat)
    (tr : Except JsError HttpResponse) (hq : jsTrim q ≠ "") (hl : 0 < limit) :
    (fetchTweets auth q limit tr).requests =
      [⟨API_BASE_URL ++ "/tweets/search/recent", jsTrim q, numToString limit,
        "created_at,author_id,public_metrics,referenced_tweets", auth, "application/json"⟩] := by
  have hvq := validation_passes hq
  have hl' := not_le.mpr hl
  cases tr with
  | error e0 => simp [fetchTweets, hvq, hl']
  | ok resp =>
    by_cases hro : resp.ok = false
    · simp [fetchTweets, hvq, hl', hro]
    · simp [fetchTweets, hvq, hl', hro]

/-- C10 witness: the non-integer limit 0.5 passes validation and the
dispatched request carries max_results "0.5". -/
theorem fetchTweets_dispatches_decimal_limit_witness :
    (fetchTweets "Bearer t" "q" halfQ (Except.error (JsError.errObj "Network error"))).requests =
      [⟨API_BASE_URL ++ "/tweets/search/recent", jsTrim "q", "0.5",
        "created_at,author_id,public_metrics,referenced_tweets", "Bearer t", "application/json"⟩] := by
  have h := fetchTweets_dispatches_decimal_limit "Bearer t" "q" halfQ
    (Except.error (JsError.errObj "Network error")) (by decide) (by decide)
  rw [h]
  rfl
